import Mathlib

/-!
# Verification of the derisk-research event serializers

Shallow embedding of `src/data_handler/handler_tools/data_parser/serializers.py`:
the pydantic models `DataAccumulatorsSyncEvent`, `LiquidationEventData` and
`WithdrawalEventData`, together with the parts of the Python runtime their
validators rely on (`int(v, base=16)`, `str.isdigit`, `decimal.Decimal`).

Strings are modelled through their character lists (`String.data`); machine
integers do not occur (Python integers are arbitrary precision, modelled by
`Nat`/`Int`); exact decimal values are modelled by `Rat`.
-/

/-! ## Python runtime model: `int(v, base=16)`

CPython accepts, in order: optional whitespace, an optional sign (`+`/`-`),
an optional `0x`/`0X` prefix, then hexadecimal digits in which a single
underscore may stand between two digits (or directly after the prefix),
followed by optional trailing whitespace.  The model covers the ASCII
whitespace characters and ASCII hexadecimal digits (CPython additionally
accepts Unicode decimal digits and Unicode spaces, which never occur in the
inputs considered here). -/

/-- The six ASCII whitespace characters stripped by `int()`. -/
def isPySpace (c : Char) : Bool :=
  decide (c = ' ') || decide (c = '\t') || decide (c = '\n') ||
  decide (c = '\r') || decide (c = '\x0b') || decide (c = '\x0c')

/-- ASCII hexadecimal digit, as accepted by `int(_, base=16)`. -/
def isHexDigitChar (c : Char) : Bool :=
  decide (48 ≤ c.toNat ∧ c.toNat ≤ 57) ||
  decide (97 ≤ c.toNat ∧ c.toNat ≤ 102) ||
  decide (65 ≤ c.toNat ∧ c.toNat ≤ 70)

/-- Numeric value of a hexadecimal digit. -/
def hexDigitVal (c : Char) : Nat :=
  if 48 ≤ c.toNat ∧ c.toNat ≤ 57 then c.toNat - 48
  else if 97 ≤ c.toNat ∧ c.toNat ≤ 102 then c.toNat - 97 + 10
  else c.toNat - 65 + 10

/-- Strip leading and trailing Python whitespace. -/
def stripPySpaces (l : List Char) : List Char :=
  ((l.dropWhile isPySpace).reverse.dropWhile isPySpace).reverse

/-- Accumulate hexadecimal digits, allowing a single `_` between two digits
(CPython rejects leading, trailing and doubled underscores). -/
def hexAcc (acc : Nat) : List Char → Option Nat
  | [] => some acc
  | c :: cs =>
    if isHexDigitChar c then hexAcc (16 * acc + hexDigitVal c) cs
    else if c = '_' then
      match cs with
      | [] => none
      | c2 :: cs2 =>
        if isHexDigitChar c2 then hexAcc (16 * acc + hexDigitVal c2) cs2 else none
    else none

/-- Parse a nonempty run of hexadecimal digits (underscores only between
digits). -/
def parseDigitsBare : List Char → Option Nat
  | [] => none
  | c :: cs => if isHexDigitChar c then hexAcc (hexDigitVal c) cs else none

/-- Digits directly after a `0x` prefix: one underscore may follow the
prefix itself. -/
def parseDigitsPfx : List Char → Option Nat
  | [] => none
  | c :: cs => if c = '_' then parseDigitsBare cs else parseDigitsBare (c :: cs)

/-- Unsigned part: optional `0x`/`0X` prefix, then digits. -/
def parseUnsigned (l : List Char) : Option Nat :=
  match l with
  | c0 :: c1 :: rest =>
    if c0 = '0' ∧ (c1 = 'x' ∨ c1 = 'X') then parseDigitsPfx rest
    else parseDigitsBare l
  | _ => parseDigitsBare l

/-- Optional sign in front of the unsigned part. -/
def parseSigned : List Char → Option Int
  | [] => none
  | c :: rest =>
    if c = '+' then (parseUnsigned rest).map Int.ofNat
    else if c = '-' then (parseUnsigned rest).map (fun n => -(Int.ofNat n))
    else (parseUnsigned (c :: rest)).map Int.ofNat

/-- CPython `int(v, base=16)` on the character list of `v`: `none` models a
raised `ValueError`. -/
def pythonIntBase16Chars (l : List Char) : Option Int :=
  parseSigned (stripPySpaces l)

/-- CPython `int(v, base=16)` on a string. -/
def pythonIntBase16 (s : String) : Option Int :=
  pythonIntBase16Chars s.data

/-- Plain base-16 value of a digit string (the mathematical `int(h, 16)` for
`h` made of hexadecimal digits only). -/
def hexListVal (l : List Char) : Nat :=
  l.foldl (fun a c => 16 * a + hexDigitVal c) 0

/-! ## Python runtime model: `decimal.Decimal`

`Decimal(int)` is exact; only division rounds, to the default context
precision of 28 significant digits with `ROUND_HALF_EVEN`.  The model
captures the numeric value of a `Decimal` as a `Rat`. -/

/-- Round `a / b` to the nearest integer, ties to even (`ROUND_HALF_EVEN`). -/
def roundHalfEvenDiv (a b : Nat) : Nat :=
  let q := a / b
  let r := a % b
  if 2 * r < b then q else if b < 2 * r then q + 1 else if q % 2 = 0 then q else q + 1

/-- Number of low decimal digits that must be dropped from `n` to leave at
most 28 significant digits (the first argument is fuel bounding the
recursion; `n` itself always suffices). -/
def sigShiftAux : Nat → Nat → Nat
  | 0, _ => 0
  | fuel + 1, n => if n < 10 ^ 28 then 0 else sigShiftAux fuel (n / 10) + 1

/-- Value of `Decimal(n) / Decimal("1e27")` for `n : Nat`, under the default
decimal context (precision 28, `ROUND_HALF_EVEN`): exact when the exact
quotient fits in 28 significant digits, otherwise rounded there. -/
def decimalDivPow27Val (n : Nat) : Rat :=
  if n < 10 ^ 28 then (n : Rat) / 10 ^ 27
  else
    ((roundHalfEvenDiv n (10 ^ sigShiftAux n n) : Nat) : Rat) * 10 ^ sigShiftAux n n / 10 ^ 27

/-- Value of `Decimal(n) / Decimal("1e27")` for a signed `n` (rounding in
the decimal context acts on the magnitude). -/
def pyDecimalScale (n : Int) : Rat :=
  if n < 0 then -(decimalDivPow27Val n.natAbs) else decimalDivPow27Val n.natAbs

/-! ## Python runtime model: `str.isdigit` and `Decimal(str)` on digit strings -/

/-- Python `str.isdigit` on one character.  Besides the ASCII digits the
Unicode digit property also holds of characters outside the Nd (decimal
digit) category, such as the superscripts `¹ ² ³` (U+00B9, U+00B2, U+00B3)
and `⁰ ⁴`–`⁹` (U+2070, U+2074–U+2079); the model covers those ranges, which
suffice for every string considered here. -/
def pythonIsDigitChar (c : Char) : Bool :=
  decide (48 ≤ c.toNat ∧ c.toNat ≤ 57) ||
  decide (c.toNat = 0xB2) || decide (c.toNat = 0xB3) || decide (c.toNat = 0xB9) ||
  decide (c.toNat = 0x2070) || decide (0x2074 ≤ c.toNat ∧ c.toNat ≤ 0x2079)

/-- Python `str.isdigit`: nonempty and every character has the digit
property. -/
def pyStrIsdigit (s : String) : Bool :=
  !s.data.isEmpty && s.data.all pythonIsDigitChar

/-- A character the `Decimal` string constructor accepts as a decimal digit:
the Nd category (modelled here by the ASCII digits, the only Nd characters
occurring in the strings considered). -/
def pyIsDecimalDigitChar (c : Char) : Bool :=
  decide (48 ≤ c.toNat ∧ c.toNat ≤ 57)

/-- Base-10 value of a decimal digit string. -/
def decListVal (l : List Char) : Nat :=
  l.foldl (fun a c => 10 * a + (c.toNat - 48)) 0

/-- `Decimal(value)` restricted to the digit-like strings reaching it in
`WithdrawalEventData.validate_amount` (the call sits behind `str.isdigit`):
a nonempty string of decimal digits converts exactly; any other character
(such as a superscript digit) makes the constructor raise
`decimal.InvalidOperation`, modelled by `none`. -/
def pyDecimalOfString (s : String) : Option Rat :=
  if !s.data.isEmpty && s.data.all pyIsDecimalDigitChar then
    some ((decListVal s.data : Nat) : Rat)
  else none

/-! ## Address helpers -/

/-- Python `value.startswith("0x")`. -/
def startsWith0x (s : String) : Bool :=
  match s.data with
  | c0 :: c1 :: _ => c0 == '0' && c1 == 'x'
  | _ => false

/-- Modelled from the spec: `shared.helpers.add_leading_zeros` is imported
by the serializers but its module is not under `src/`.  The spec's glossary
defines the canonical address format as a `0x`-prefixed hexadecimal string
padded with leading zeros to a fixed total width; the fixed width is 64 hex
digits after the prefix.  The helper replaces the first two characters by
`0x` and left-pads the remainder with `0` to 64 characters. -/
def add_leading_zeros (s : String) : String :=
  ⟨'0' :: 'x' :: (List.replicate (64 - (s.data.drop 2).length) '0' ++ s.data.drop 2)⟩

/-- `needle` occurs as a contiguous substring of `hay`. -/
def containsSub (needle hay : List Char) : Bool :=
  match hay with
  | [] => needle.isEmpty
  | _ :: t => needle.isPrefixOf hay || containsSub needle t

/-! ## `DataAccumulatorsSyncEvent` -/

/-- Normalized `DataAccumulatorsSyncEvent` record: `token` is an arbitrary
string (no validator), the accumulators hold the values produced by
`hex_to_decimal`. -/
structure DataAccumulatorsSyncEvent where
  token : String
  lending_accumulator : Rat
  debt_accumulator : Rat
deriving DecidableEq, Repr

/-- `DataAccumulatorsSyncEvent.hex_to_decimal`:
`Decimal(int(v, 16)) / Decimal("1e27")`.  A `ValueError` from `int` (the
validator catches nothing) is modelled by `none`. -/
def DataAccumulatorsSyncEvent.hex_to_decimal (v : String) : Option Rat :=
  (pythonIntBase16 v).map pyDecimalScale

/-- Raw field mapping for `DataAccumulatorsSyncEvent`. -/
structure AccumulatorsSyncRaw where
  token : String
  lending_accumulator : String
  debt_accumulator : String
deriving DecidableEq, Repr

/-- One aggregated validation-error entry: offending field name and the
message of the `ValueError` raised while validating it. -/
def collectErr {α : Type} (f : String) (r : Except String α) : List (String × String) :=
  match r with
  | .ok _ => []
  | .error m => [(f, m)]

/-- Message of the `ValueError` raised by `int(v, base=16)` on a bad
literal. -/
def intParseErrMsg (v : String) : String :=
  "invalid literal for int() with base 16: " ++ v

/-- Model construction for `DataAccumulatorsSyncEvent` (pydantic v2
semantics: every field is validated in declaration order, a `ValueError`
raised by a validator becomes a validation error for that field, and all
field errors are aggregated into one `ValidationError`). -/
def DataAccumulatorsSyncEvent.construct (r : AccumulatorsSyncRaw) :
    Except (List (String × String)) DataAccumulatorsSyncEvent :=
  match DataAccumulatorsSyncEvent.hex_to_decimal r.lending_accumulator,
      DataAccumulatorsSyncEvent.hex_to_decimal r.debt_accumulator with
  | some l, some d => .ok ⟨r.token, l, d⟩
  | rl, rd =>
    .error
      ((match rl with
        | none => [("lending_accumulator", intParseErrMsg r.lending_accumulator)]
        | some _ => []) ++
        (match rd with
        | none => [("debt_accumulator", intParseErrMsg r.debt_accumulator)]
        | some _ => []))

/-! ## `LiquidationEventData` -/

/-- Normalized `LiquidationEventData` record.  The amount fields are
annotated `str` in the source, but the (mode `after`) validator returns a
`Decimal`, which pydantic v2 keeps without re-validation; the record
therefore holds decimal values. -/
structure LiquidationEventData where
  liquidator : String
  user : String
  debt_token : String
  debt_raw_amount : Rat
  debt_face_amount : Rat
  collateral_token : String
  collateral_amount : Rat
deriving DecidableEq, Repr

/-- `LiquidationEventData.validate_valid_addresses` (applied to
`liquidator`, `user`, `debt_token`, `collateral_token`): reject values not
starting with `0x` with a `ValueError` naming the field, otherwise pad with
leading zeros. -/
def LiquidationEventData.validate_valid_addresses (field_name value : String) :
    Except String String :=
  if startsWith0x value then .ok (add_leading_zeros value)
  else .error ("Invalid address provided for " ++ field_name)

/-- `LiquidationEventData.validate_valid_numbers` (applied to
`debt_raw_amount`, `debt_face_amount`, `collateral_amount`):
`Decimal(int(value, base=16))`, catching the `ValueError` of a failed parse
and re-raising a `ValueError` naming the field. -/
def LiquidationEventData.validate_valid_numbers (field_name value : String) :
    Except String Rat :=
  match pythonIntBase16 value with
  | some n => .ok ((n : Int) : Rat)
  | none => .error (field_name ++ " field is not a valid hexadecimal number")

/-- Raw field mapping for `LiquidationEventData`. -/
structure LiquidationRaw where
  liquidator : String
  user : String
  debt_token : String
  debt_raw_amount : String
  debt_face_amount : String
  collateral_token : String
  collateral_amount : String
deriving DecidableEq, Repr

/-- Model construction for `LiquidationEventData` (pydantic v2 semantics:
each field's validator runs independently, fields in declaration order, and
the `ValueError`s raised become entries of one aggregated
`ValidationError`). -/
def LiquidationEventData.construct (r : LiquidationRaw) :
    Except (List (String × String)) LiquidationEventData :=
  match LiquidationEventData.validate_valid_addresses "liquidator" r.liquidator,
      LiquidationEventData.validate_valid_addresses "user" r.user,
      LiquidationEventData.validate_valid_addresses "debt_token" r.debt_token,
      LiquidationEventData.validate_valid_numbers "debt_raw_amount" r.debt_raw_amount,
      LiquidationEventData.validate_valid_numbers "debt_face_amount" r.debt_face_amount,
      LiquidationEventData.validate_valid_addresses "collateral_token" r.collateral_token,
      LiquidationEventData.validate_valid_numbers "collateral_amount" r.collateral_amount with
  | .ok a, .ok b, .ok c, .ok d, .ok e, .ok f, .ok g => .ok ⟨a, b, c, d, e, f, g⟩
  | ra, rb, rc, rd, re, rf, rg =>
    .error (collectErr "liquidator" ra ++ collectErr "user" rb ++
      collectErr "debt_token" rc ++ collectErr "debt_raw_amount" rd ++
      collectErr "debt_face_amount" re ++ collectErr "collateral_token" rf ++
      collectErr "collateral_amount" rg)

/-! ## `WithdrawalEventData` -/

/-- Normalized `WithdrawalEventData` record. -/
structure WithdrawalEventData where
  user : String
  amount : Rat
  token : String
deriving DecidableEq, Repr

/-- Failure of `WithdrawalEventData.validate_amount`: either the
`ValueError` the validator raises itself, or the `decimal.InvalidOperation`
escaping from `Decimal(value)` (pydantic converts only `ValueError` and
`AssertionError` into validation errors, so the latter propagates raw). -/
inductive AmountFailure where
  | nonNumericAmount (msg : String)
  | decimalInvalidOperation
deriving DecidableEq, Repr

/-- `WithdrawalEventData.validate_addresses` (applied to `user`, `token`):
reject values not starting with `0x` with a `ValueError` carrying the raw
value, otherwise pad with leading zeros. -/
def WithdrawalEventData.validate_addresses (value : String) : Except String String :=
  if startsWith0x value then .ok (add_leading_zeros value)
  else .error ("Invalid address provided: " ++ value)

/-- `WithdrawalEventData.validate_amount` (mode `before`): raise
`ValueError("Amount field is not numeric")` unless `value.isdigit()`, then
return `Decimal(value)` (whose own exception is not caught). -/
def WithdrawalEventData.validate_amount (value : String) : Except AmountFailure Rat :=
  if pyStrIsdigit value = false then .error (.nonNumericAmount "Amount field is not numeric")
  else
    match pyDecimalOfString value with
    | some q => .ok q
    | none => .error .decimalInvalidOperation

/-- Raw field mapping for `WithdrawalEventData`. -/
structure WithdrawalRaw where
  user : String
  amount : String
  token : String
deriving DecidableEq, Repr

/-- Outcome of constructing a `WithdrawalEventData`: success, an aggregated
`ValidationError`, or an exception that is not a `ValueError` escaping the
validator uncaught. -/
inductive WithdrawalOutcome where
  | ok (rec : WithdrawalEventData)
  | validationError (errs : List (String × String))
  | uncaughtException
deriving DecidableEq, Repr

/-- Validation-error entry of an amount failure (empty on success or when
the failure escapes as a raw exception). -/
def amountErrEntry (r : Except AmountFailure Rat) : List (String × String) :=
  match r with
  | .error (.nonNumericAmount m) => [("amount", m)]
  | _ => []

/-- Model construction for `WithdrawalEventData` (pydantic v2 semantics:
fields in declaration order `user`, `amount`, `token`; `ValueError`s are
aggregated; a `decimal.InvalidOperation` raised while validating `amount`
aborts construction and propagates). -/
def WithdrawalEventData.construct (r : WithdrawalRaw) : WithdrawalOutcome :=
  match WithdrawalEventData.validate_addresses r.user,
      WithdrawalEventData.validate_amount r.amount,
      WithdrawalEventData.validate_addresses r.token with
  | _, .error .decimalInvalidOperation, _ => .uncaughtException
  | .ok u, .ok a, .ok t => .ok ⟨u, a, t⟩
  | ru, ra, rt =>
    .validationError (collectErr "user" ru ++ amountErrEntry ra ++ collectErr "token" rt)

/-! ## Helper lemmas -/

lemma hex_ne {c : Char} (h : isHexDigitChar c = true) (d : Char)
    (hd : isHexDigitChar d = false) : c ≠ d := by
  intro e
  rw [e, hd] at h
  exact absurd h (by simp)

lemma isPySpace_eq_false_of_hex {c : Char} (h : isHexDigitChar c = true) :
    isPySpace c = false := by
  have h1 := hex_ne h ' ' (by decide)
  have h2 := hex_ne h '\t' (by decide)
  have h3 := hex_ne h '\n' (by decide)
  have h4 := hex_ne h '\r' (by decide)
  have h5 := hex_ne h '\x0b' (by decide)
  have h6 := hex_ne h '\x0c' (by decide)
  simp [isPySpace, h1, h2, h3, h4, h5, h6]

lemma dropWhile_pySpace_eq_self {l : List Char}
    (h : ∀ c ∈ l, isHexDigitChar c = true) : l.dropWhile isPySpace = l := by
  cases l with
  | nil => rfl
  | cons c cs =>
    simp [List.dropWhile, isPySpace_eq_false_of_hex (h c (by simp))]

lemma stripPySpaces_eq_self {l : List Char}
    (h : ∀ c ∈ l, isHexDigitChar c = true) : stripPySpaces l = l := by
  have h2 : ∀ c ∈ l.reverse, isHexDigitChar c = true := by
    intro c hc
    exact h c (List.mem_reverse.mp hc)
  unfold stripPySpaces
  rw [dropWhile_pySpace_eq_self h, dropWhile_pySpace_eq_self h2,
    List.reverse_reverse]

lemma hexAcc_all_digits (cs : List Char) (acc : Nat)
    (h : ∀ c ∈ cs, isHexDigitChar c = true) :
    hexAcc acc cs = some (cs.foldl (fun a c => 16 * a + hexDigitVal c) acc) := by
  induction cs generalizing acc with
  | nil => rfl
  | cons c cs ih =>
    have hc : isHexDigitChar c = true := h c (by simp)
    have hstep : hexAcc acc (c :: cs) = hexAcc (16 * acc + hexDigitVal c) cs := by
      rw [hexAcc.eq_def]
      simp [hc]
    rw [hstep, List.foldl_cons]
    exact ih _ (fun d hd => h d (by simp [hd]))

lemma parseUnsigned_all_digits (l : List Char) (hne : l ≠ [])
    (h : ∀ c ∈ l, isHexDigitChar c = true) :
    parseUnsigned l = some (hexListVal l) := by
  cases l with
  | nil => exact absurd rfl hne
  | cons c cs =>
    have hc : isHexDigitChar c = true := h c (by simp)
    have hbare : parseDigitsBare (c :: cs) = some (hexListVal (c :: cs)) := by
      rw [parseDigitsBare, if_pos hc]
      have := hexAcc_all_digits cs (hexDigitVal c) (fun d hd => h d (by simp [hd]))
      rw [this]
      simp [hexListVal]
    cases cs with
    | nil => exact hbare
    | cons c1 cs1 =>
      have hc1 : isHexDigitChar c1 = true := h c1 (by simp)
      have hx : ¬(c = '0' ∧ (c1 = 'x' ∨ c1 = 'X')) := by
        rintro ⟨-, h1 | h1⟩
        · exact hex_ne hc1 'x' (by decide) h1
        · exact hex_ne hc1 'X' (by decide) h1
      rw [parseUnsigned, if_neg hx]
      exact hbare

lemma pythonIntBase16Chars_all_digits (l : List Char) (hne : l ≠ [])
    (h : ∀ c ∈ l, isHexDigitChar c = true) :
    pythonIntBase16Chars l = some ((hexListVal l : Nat) : Int) := by
  rw [pythonIntBase16Chars, stripPySpaces_eq_self h]
  cases l with
  | nil => exact absurd rfl hne
  | cons c cs =>
    have hc : isHexDigitChar c = true := h c (by simp)
    rw [parseSigned, if_neg (hex_ne hc '+' (by decide)),
      if_neg (hex_ne hc '-' (by decide)),
      parseUnsigned_all_digits (c :: cs) (by simp) h]
    rfl

lemma startsWith0x_add_leading_zeros (s : String) :
    startsWith0x (add_leading_zeros s) = true := by
  rw [add_leading_zeros, startsWith0x]
  rfl

lemma add_leading_zeros_idem (s : String) :
    add_leading_zeros (add_leading_zeros s) = add_leading_zeros s := by
  rw [add_leading_zeros, add_leading_zeros]
  have hdrop :
      (String.data ⟨'0' :: 'x' ::
        (List.replicate (64 - (s.data.drop 2).length) '0' ++ s.data.drop 2)⟩).drop 2 =
      List.replicate (64 - (s.data.drop 2).length) '0' ++ s.data.drop 2 := rfl
  rw [hdrop]
  have hlen : 64 -
      (List.replicate (64 - (s.data.drop 2).length) '0' ++ s.data.drop 2).length = 0 := by
    rw [List.length_append, List.length_replicate]
    omega
  rw [hlen]
  rfl

/-! ## Claims -/

/-- Claim C1, counterexample.  The hexadecimal string
`204fce5e3e25026110000001` denotes `10^28 + 1`; the accumulator validator
computes `Decimal(10^28 + 1) / Decimal("1e27")` under the default decimal
context (28 significant digits), which rounds to exactly `10`, whereas the
exact quotient `(10^28 + 1) / 10^27` differs from `10`.  The claim that the
result equals `int(h, 16) / 10^27` exactly for integers of any size is
therefore false. -/
theorem C1_counterexample :
    pythonIntBase16 "204fce5e3e25026110000001" = some ((10 ^ 28 + 1 : Nat) : Int) ∧
    DataAccumulatorsSyncEvent.hex_to_decimal "204fce5e3e25026110000001" = some 10 ∧
    (10 : Rat) ≠ ((10 ^ 28 + 1 : Nat) : Rat) / 10 ^ 27 := by
  have hp : pythonIntBase16 "204fce5e3e25026110000001" =
      some ((10 ^ 28 + 1 : Nat) : Int) := by decide
  refine ⟨hp, ?_, by norm_num⟩
  rw [DataAccumulatorsSyncEvent.hex_to_decimal, hp, Option.map_some']
  have hval : pyDecimalScale ((10 ^ 28 + 1 : Nat) : Int) = 10 := by
    rw [pyDecimalScale, if_neg (by decide)]
    have habs : ((10 ^ 28 + 1 : Nat) : Int).natAbs = 10 ^ 28 + 1 := by decide
    rw [habs]
    have h1 : sigShiftAux (10 ^ 28 + 1) (10 ^ 28 + 1) = 1 := by decide
    have h2 : roundHalfEvenDiv (10 ^ 28 + 1) (10 ^ 1) = 10 ^ 27 := by decide
    rw [decimalDivPow27Val, if_neg (by norm_num), h1, h2]
    norm_num
  rw [hval]

/-- Claim C1, amended: the accumulator validator returns exactly
`int(h, 16) / 10^27` whenever the parsed integer has at most 28 significant
decimal digits (the default decimal context precision); beyond that the
division rounds to 28 significant digits. -/
theorem C1_amended (v : String) (n : Int) (hp : pythonIntBase16 v = some n)
    (hsmall : n.natAbs < 10 ^ 28) :
    DataAccumulatorsSyncEvent.hex_to_decimal v = some ((n : Rat) / 10 ^ 27) := by
  rw [DataAccumulatorsSyncEvent.hex_to_decimal, hp, Option.map_some']
  have hval : pyDecimalScale n = (n : Rat) / 10 ^ 27 := by
    rw [pyDecimalScale, decimalDivPow27Val, if_pos hsmall]
    have hcast : ((n.natAbs : Nat) : Rat) = |(n : Rat)| := by
      rw [Int.cast_natAbs, Int.cast_abs]
    rcases lt_or_le n 0 with hneg | hpos
    · rw [if_pos hneg, hcast, abs_of_neg (by exact_mod_cast hneg : (n : Rat) < 0)]
      ring
    · rw [if_neg (not_lt.mpr hpos), hcast,
        abs_of_nonneg (by exact_mod_cast hpos : (0 : Rat) ≤ n)]
  rw [hval]

/-- Claim C1, witness for the amended theorem at the concrete input `"ff"`. -/
theorem C1_amended_witness :
    pythonIntBase16 "ff" = some 255 ∧ ((255 : Int).natAbs < 10 ^ 28) ∧
    DataAccumulatorsSyncEvent.hex_to_decimal "ff" = some (((255 : Int) : Rat) / 10 ^ 27) :=
  ⟨by decide, by decide, C1_amended "ff" 255 (by decide) (by decide)⟩

/-- Claim C3, counterexample.  For the `WithdrawalEventData` address fields
the validator receives no field name: on input `"abc"` the error message is
`Invalid address provided: abc`, which contains neither `user` nor `token`.
The claim that every address-typed field of every record kind reports an
error identifying the field name is therefore false. -/
theorem C3_counterexample :
    WithdrawalEventData.validate_addresses "abc" =
      .error "Invalid address provided: abc" ∧
    containsSub "user".data "Invalid address provided: abc".data = false ∧
    containsSub "token".data "Invalid address provided: abc".data = false := by
  refine ⟨by rfl, by decide, by decide⟩

/-- Claim C3, amended: for the four `LiquidationEventData` address fields a
value without the `0x` prefix fails with a `ValueError` whose message names
the field; for the two `WithdrawalEventData` address fields it fails with a
`ValueError` whose message carries the raw value instead of the field name
(the field is identified only by the position pydantic attaches to the
error, not by the message). -/
theorem C3_amended :
    (∀ f v, startsWith0x v = false →
      LiquidationEventData.validate_valid_addresses f v =
        .error ("Invalid address provided for " ++ f)) ∧
    (∀ v, startsWith0x v = false →
      WithdrawalEventData.validate_addresses v =
        .error ("Invalid address provided: " ++ v)) := by
  constructor
  · intro f v h
    rw [LiquidationEventData.validate_valid_addresses, h]
    rfl
  · intro v h
    rw [WithdrawalEventData.validate_addresses, h]
    rfl

/-- Claim C3, witness for the amended theorem at field `liquidator` and
value `"abc"`. -/
theorem C3_amended_witness :
    startsWith0x "abc" = false ∧
    LiquidationEventData.validate_valid_addresses "liquidator" "abc" =
      .error ("Invalid address provided for " ++ "liquidator") :=
  ⟨by decide, C3_amended.1 "liquidator" "abc" (by decide)⟩

/-- Claim C4: a nonempty string of plain base-16 digits is accepted by the
`LiquidationEventData` amount validator, and the resulting decimal is the
non-negative integer `int(h, 16)`. -/
theorem C4_hex_amounts (v : String) (hne : v.data ≠ [])
    (hhex : ∀ c ∈ v.data, isHexDigitChar c = true) :
    LiquidationEventData.validate_valid_numbers "debt_raw_amount" v =
      .ok ((hexListVal v.data : Nat) : Rat) ∧
    0 ≤ ((hexListVal v.data : Nat) : Rat) := by
  have hp : pythonIntBase16 v = some ((hexListVal v.data : Nat) : Int) :=
    pythonIntBase16Chars_all_digits v.data hne hhex
  constructor
  · rw [LiquidationEventData.validate_valid_numbers, hp]
    norm_num
  · positivity

/-- Claim C4, witness at the concrete input `"ff"`. -/
theorem C4_hex_amounts_witness :
    "ff".data ≠ [] ∧
    LiquidationEventData.validate_valid_numbers "debt_raw_amount" "ff" =
      .ok ((hexListVal "ff".data : Nat) : Rat) ∧
    0 ≤ ((hexListVal "ff".data : Nat) : Rat) :=
  ⟨by decide, (C4_hex_amounts "ff" (by decide) (by decide)).1,
    (C4_hex_amounts "ff" (by decide) (by decide)).2⟩

/-- Claim C6: whenever `int(value, base=16)` fails, the
`LiquidationEventData` amount validator returns the structured
`ValueError` naming the offending field (the raw parse exception is caught
and replaced, never propagated). -/
theorem C6_invalid_number (f v : String) (h : pythonIntBase16 v = none) :
    LiquidationEventData.validate_valid_numbers f v =
      .error (f ++ " field is not a valid hexadecimal number") := by
  rw [LiquidationEventData.validate_valid_numbers, h]

/-- Claim C6, witness at the non-hex input `"zz"` for field
`debt_face_amount`. -/
theorem C6_invalid_number_witness :
    pythonIntBase16 "zz" = none ∧
    LiquidationEventData.validate_valid_numbers "debt_face_amount" "zz" =
      .error ("debt_face_amount" ++ " field is not a valid hexadecimal number") :=
  ⟨by decide, C6_invalid_number "debt_face_amount" "zz" (by decide)⟩

/-- Claim C5, counterexample.  The superscript digit `²` (U+00B2) is not a
decimal digit, yet `"²".isdigit()` is true, so the withdrawal amount
validator does not raise `NonNumericAmountError` on it: `Decimal("²")`
raises `decimal.InvalidOperation` instead.  The claim that every input
containing a non-decimal-digit character fails with
`NonNumericAmountError` is therefore false. -/
theorem C5_counterexample :
    (∃ c ∈ "²".data, pyIsDecimalDigitChar c = false) ∧
    WithdrawalEventData.validate_amount "²" = .error .decimalInvalidOperation ∧
    WithdrawalEventData.validate_amount "²" ≠
      .error (.nonNumericAmount "Amount field is not numeric") := by
  refine ⟨by decide, by rfl, ?_⟩
  intro h
  rw [show WithdrawalEventData.validate_amount "²" =
    .error .decimalInvalidOperation from rfl] at h
  exact absurd (Except.error.inj h) (by simp)

/-- Claim C5, amended: `"123"` converts to the exact decimal `123`, and
every input rejected by Python `str.isdigit` (among them the empty string,
`"-5"` and `"12.3"`) fails with `NonNumericAmountError`; an input that
passes `str.isdigit` without consisting of decimal digits (a superscript
digit) instead lets the `Decimal` exception escape. -/
theorem C5_amended :
    WithdrawalEventData.validate_amount "123" = .ok ((123 : Nat) : Rat) ∧
    WithdrawalEventData.validate_amount "" =
      .error (.nonNumericAmount "Amount field is not numeric") ∧
    WithdrawalEventData.validate_amount "-5" =
      .error (.nonNumericAmount "Amount field is not numeric") ∧
    WithdrawalEventData.validate_amount "12.3" =
      .error (.nonNumericAmount "Amount field is not numeric") ∧
    (∀ v, pyStrIsdigit v = false →
      WithdrawalEventData.validate_amount v =
        .error (.nonNumericAmount "Amount field is not numeric")) := by
  refine ⟨by rfl, by rfl, by rfl, by rfl, ?_⟩
  intro v h
  rw [WithdrawalEventData.validate_amount, h]
  rfl

/-- Claim C5, witness for the amended theorem at the non-digit input
`"7a"`. -/
theorem C5_amended_witness :
    pyStrIsdigit "7a" = false ∧
    WithdrawalEventData.validate_amount "7a" =
      .error (.nonNumericAmount "Amount field is not numeric") :=
  ⟨by decide, C5_amended.2.2.2.2 "7a" (by decide)⟩

/-- Claim C7: address canonicalization is idempotent.  If a
`LiquidationEventData` (resp. `WithdrawalEventData`) address validator
accepts `v` with canonical output `c`, then running the same validator on
`c` accepts and returns `c` unchanged. -/
theorem C7_canonicalization_idempotent :
    (∀ f v c, LiquidationEventData.validate_valid_addresses f v = .ok c →
      LiquidationEventData.validate_valid_addresses f c = .ok c) ∧
    (∀ v c, WithdrawalEventData.validate_addresses v = .ok c →
      WithdrawalEventData.validate_addresses c = .ok c) := by
  constructor
  · intro f v c h
    rw [LiquidationEventData.validate_valid_addresses] at h
    by_cases hsw : startsWith0x v
    · rw [if_pos hsw] at h
      have hc : c = add_leading_zeros v := (Except.ok.inj h).symm
      subst hc
      rw [LiquidationEventData.validate_valid_addresses,
        if_pos (startsWith0x_add_leading_zeros v), add_leading_zeros_idem]
    · rw [if_neg hsw] at h
      exact absurd h (by simp)
  · intro v c h
    rw [WithdrawalEventData.validate_addresses] at h
    by_cases hsw : startsWith0x v
    · rw [if_pos hsw] at h
      have hc : c = add_leading_zeros v := (Except.ok.inj h).symm
      subst hc
      rw [WithdrawalEventData.validate_addresses,
        if_pos (startsWith0x_add_leading_zeros v), add_leading_zeros_idem]
    · rw [if_neg hsw] at h
      exact absurd h (by simp)

/-- Claim C7, witness: canonicalizing `0xabc` and canonicalizing the result
again. -/
theorem C7_canonicalization_idempotent_witness :
    LiquidationEventData.validate_valid_addresses "user" "0xabc" =
      .ok "0x0000000000000000000000000000000000000000000000000000000000000abc" ∧
    LiquidationEventData.validate_valid_addresses "user"
        "0x0000000000000000000000000000000000000000000000000000000000000abc" =
      .ok "0x0000000000000000000000000000000000000000000000000000000000000abc" :=
  ⟨by rfl, C7_canonicalization_idempotent.1 "user" "0xabc"
    "0x0000000000000000000000000000000000000000000000000000000000000abc" (by rfl)⟩

/-- Claim C9: the input `"²"` passes `str.isdigit`, but `Decimal("²")`
raises `decimal.InvalidOperation`, which is not the structured
`NonNumericAmountError`; the raw exception escapes the validator and aborts
record construction. -/
theorem C9_isdigit_decimal_gap :
    pyStrIsdigit "²" = true ∧
    WithdrawalEventData.validate_amount "²" = .error .decimalInvalidOperation ∧
    WithdrawalEventData.construct ⟨"0x1", "²", "0x2"⟩ = .uncaughtException := by
  refine ⟨by decide, by rfl, by decide⟩

/-- Claim C10: the liquidation amount validator accepts exactly the strings
`int(value, base=16)` accepts — strictly more than plain base-16 digit
strings: surrounding whitespace, a sign, a `0x`/`0X` prefix and underscore
separators are allowed, and the resulting decimal equals
`Decimal(int(value, 16))`, negative when the string carries a `-` sign. -/
theorem C10_python_int_semantics :
    (∀ v n, pythonIntBase16 v = some n →
      LiquidationEventData.validate_valid_numbers "collateral_amount" v =
        .ok ((n : Int) : Rat)) ∧
    pythonIntBase16 " -0xff " = some (-255) ∧
    (¬ ∀ c ∈ " -0xff ".data, isHexDigitChar c = true) ∧
    LiquidationEventData.validate_valid_numbers "collateral_amount" " -0xff " =
      .ok (((-255 : Int) : Rat)) ∧
    (((-255 : Int) : Rat) < 0) ∧
    pythonIntBase16 "0Xf_f" = some 255 ∧
    pythonIntBase16 "+ff" = some 255 := by
  have hall : ∀ v n, pythonIntBase16 v = some n →
      LiquidationEventData.validate_valid_numbers "collateral_amount" v =
        .ok ((n : Int) : Rat) := by
    intro v n h
    rw [LiquidationEventData.validate_valid_numbers, h]
  refine ⟨hall, by decide, by decide, hall " -0xff " (-255) (by decide), by norm_num,
    by decide, by decide⟩

/-- Claim C10, witness for the universally quantified part at the prefixed
input `"0x10"`. -/
theorem C10_python_int_semantics_witness :
    pythonIntBase16 "0x10" = some 16 ∧
    LiquidationEventData.validate_valid_numbers "collateral_amount" "0x10" =
      .ok ((16 : Int) : Rat) :=
  ⟨by decide, C10_python_int_semantics.1 "0x10" 16 (by decide)⟩

/-- Claim C8: record construction is deterministic — for each of the three
record kinds, equal raw field mappings produce equal outcomes, and the
outcome depends on nothing but the raw mapping (the constructors are pure
functions of it). -/
theorem C8_deterministic :
    (∀ r1 r2 : AccumulatorsSyncRaw, r1 = r2 →
      DataAccumulatorsSyncEvent.construct r1 = DataAccumulatorsSyncEvent.construct r2) ∧
    (∀ r1 r2 : LiquidationRaw, r1 = r2 →
      LiquidationEventData.construct r1 = LiquidationEventData.construct r2) ∧
    (∀ r1 r2 : WithdrawalRaw, r1 = r2 →
      WithdrawalEventData.construct r1 = WithdrawalEventData.construct r2) :=
  ⟨fun _ _ h => by rw [h], fun _ _ h => by rw [h], fun _ _ h => by rw [h]⟩

/-- Claim C8, witness at a concrete raw mapping for each record kind. -/
theorem C8_deterministic_witness :
    DataAccumulatorsSyncEvent.construct ⟨"0x1", "ff", "ff"⟩ =
      DataAccumulatorsSyncEvent.construct ⟨"0x1", "ff", "ff"⟩ ∧
    LiquidationEventData.construct ⟨"0x1", "0x2", "0x3", "ff", "ff", "0x4", "ff"⟩ =
      LiquidationEventData.construct ⟨"0x1", "0x2", "0x3", "ff", "ff", "0x4", "ff"⟩ ∧
    WithdrawalEventData.construct ⟨"0x1", "123", "0x2"⟩ =
      WithdrawalEventData.construct ⟨"0x1", "123", "0x2"⟩ :=
  ⟨C8_deterministic.1 ⟨"0x1", "ff", "ff"⟩ ⟨"0x1", "ff", "ff"⟩ rfl,
    C8_deterministic.2.1 ⟨"0x1", "0x2", "0x3", "ff", "ff", "0x4", "ff"⟩
      ⟨"0x1", "0x2", "0x3", "ff", "ff", "0x4", "ff"⟩ rfl,
    C8_deterministic.2.2 ⟨"0x1", "123", "0x2"⟩ ⟨"0x1", "123", "0x2"⟩ rfl⟩

/-- Claim C2, counterexample.  pydantic v2 validates every field and
aggregates the failures into one `ValidationError`: a raw mapping whose
`liquidator` and `user` both lack the `0x` prefix produces an error naming
both fields, not only the first one.  The claim that construction aborts at
the first failing field and reports only that single field is therefore
false. -/
theorem C2_counterexample :
    LiquidationEventData.construct ⟨"abc", "xyz", "0x1", "ff", "ff", "0x2", "ff"⟩ =
      .error [("liquidator", "Invalid address provided for liquidator"),
        ("user", "Invalid address provided for user")] ∧
    [("liquidator", "Invalid address provided for liquidator"),
        ("user", "Invalid address provided for user")].length = 2 := by
  exact ⟨by rfl, by rfl⟩

/-- Claim C2, amended: when several fields fail, construction reports all
of them, one entry per failing field in declaration order; in particular a
mapping whose `liquidator` and `user` are both invalid yields an error list
starting with the `liquidator` entry followed by the `user` entry. -/
theorem C2_amended (r : LiquidationRaw) (h1 : startsWith0x r.liquidator = false)
    (h2 : startsWith0x r.user = false) :
    ∃ rest, LiquidationEventData.construct r =
      .error (("liquidator", "Invalid address provided for liquidator") ::
        ("user", "Invalid address provided for user") :: rest) := by
  have e1 : LiquidationEventData.validate_valid_addresses "liquidator" r.liquidator =
      .error ("Invalid address provided for " ++ "liquidator") := by
    rw [LiquidationEventData.validate_valid_addresses, h1]
    rfl
  have e2 : LiquidationEventData.validate_valid_addresses "user" r.user =
      .error ("Invalid address provided for " ++ "user") := by
    rw [LiquidationEventData.validate_valid_addresses, h2]
    rfl
  rw [LiquidationEventData.construct, e1, e2]
  exact ⟨_, rfl⟩

/-- Claim C2, witness for the amended theorem at a mapping with two invalid
addresses. -/
theorem C2_amended_witness :
    startsWith0x "abc" = false ∧ startsWith0x "xyz" = false ∧
    ∃ rest, LiquidationEventData.construct ⟨"abc", "xyz", "0x1", "ff", "ff", "0x2", "ff"⟩ =
      .error (("liquidator", "Invalid address provided for liquidator") ::
        ("user", "Invalid address provided for user") :: rest) :=
  ⟨by decide, by decide,
    C2_amended ⟨"abc", "xyz", "0x1", "ff", "ff", "0x2", "ff"⟩ (by decide) (by decide)⟩
